import Mathlib

/-!
# Verification of the replit_audio client library

A shallow embedding of `src/audio.rs`, the client-side control surface for
the external audio daemon.  The filesystem boundary is made explicit:

* the status snapshot file `/tmp/audioStatus.json` is modelled by
  `StatusFile` (unreadable, malformed, or parsed JSON content), and every
  reading operation takes the current snapshot state as an argument —
  mirroring the fact that the Rust code re-reads the file on every call;
* the command channel `/tmp/audio` is modelled by a `ChannelState`
  (open failure, write failure, or success) plus the list of records the
  operation appends;
* the `lazy_static` atomic counter `CURRENT_AUDIO` is modelled by explicit
  counter-state passing: `fetch_add` returns the old value and stores the
  increment wrapped modulo `2 ^ 64`, as `AtomicU64` arithmetic does;
* Rust `f64` values are embedded as rationals: the client performs no
  floating-point arithmetic, it only passes numeric values through;
* a reachable `unwrap()` on `None` (a process abort) is modelled by the
  `none` case of an `Option` result, while `AudioResult` errors that the
  Rust code returns are the `Except.error` case.

`AudioError` mirrors, constructor by constructor, the distinct
`AudioError::new(format!(...))` sites of the source, keeping the dynamic
parts of each message.
-/

namespace ReplitAudio

/-- JSON values as produced by the `json` crate. -/
inductive Json where
  | null : Json
  | jbool : Bool → Json
  | jnum : Rat → Json
  | jstr : String → Json
  | jarr : List Json → Json
  | jobj : List (String × Json) → Json

/-- `j[key]` for a string key: member access on objects, `Null` otherwise. -/
def Json.index (j : Json) (key : String) : Json :=
  match j with
  | .jobj fields =>
    match fields.find? (fun kv => kv.1 == key) with
    | some kv => kv.2
    | none => .null
  | _ => .null

/-- `members()`: the element list of an array, empty for anything else. -/
def Json.members : Json → List Json
  | .jarr xs => xs
  | _ => []

/-- `as_bool()`: only a JSON boolean converts. -/
def Json.as_bool : Json → Option Bool
  | .jbool b => some b
  | _ => none

/-- `as_str()`: only a JSON string converts. -/
def Json.as_str : Json → Option String
  | .jstr s => some s
  | _ => none

/-- `as_u64()`: an integral number in unsigned 64-bit range. -/
def Json.as_u64 : Json → Option Nat
  | .jnum q => if q.den = 1 ∧ 0 ≤ q.num ∧ q.num < 2 ^ 64 then some q.num.toNat else none
  | _ => none

/-- `as_i64()`: an integral number in signed 64-bit range. -/
def Json.as_i64 : Json → Option Int
  | .jnum q => if q.den = 1 ∧ -(2 ^ 63) ≤ q.num ∧ q.num < 2 ^ 63 then some q.num else none
  | _ => none

/-- `as_f64()`: every JSON number converts. -/
def Json.as_f64 : Json → Option Rat
  | .jnum q => some q
  | _ => none

/-- `j == n` for an unsigned integer `n` (`PartialEq<u64>` on `JsonValue`). -/
def Json.eqNat (j : Json) (n : Nat) : Bool :=
  match j with
  | .jnum q => q == (n : Rat)
  | _ => false

/-- `j == s` for a string slice `s` (`PartialEq<&str>` on `JsonValue`). -/
def Json.eqStr (j : Json) (s : String) : Bool :=
  match j with
  | .jstr t => t == s
  | _ => false

/-- The two fixed filesystem paths of the protocol. -/
def AUDIO_UPDATE_PATH : String := "/tmp/audio"

/-- Path of the daemon-owned status snapshot. -/
def AUDIO_STATUS_PATH : String := "/tmp/audioStatus.json"

/-- `Duration::from_secs(2)`, the polling budget of `build()`, in seconds. -/
def time_out_secs : Nat := 2

/-- One `AudioError::new` site each; the `String` arguments carry the
dynamic parts of the corresponding formatted message. -/
inductive AudioError where
  | readError (path : String) (cause : String)
  | parseError (cause : String)
  | notFoundId (id : Nat)
  | notFoundName (name : String)
  | openError (path : String) (cause : String)
  | writeError (path : String) (cause : String)
  | timeoutError (path : String)
  deriving DecidableEq

/-- `AudioResult<T>` from the source. -/
abbrev AudioResult (α : Type) := Except AudioError α

/-- State of the status snapshot file at one read: `fs::read_to_string`
fails, or `json::parse` fails, or a parsed JSON document is obtained. -/
inductive StatusFile where
  | unreadable (cause : String)
  | malformed (cause : String)
  | content (j : Json)

/-- State of the command channel for one append attempt. -/
inductive ChannelState where
  | openFail (cause : String)
  | writeFail (cause : String)
  | ok

/-- `parse_status()` (audio.rs lines 44-54). -/
def parse_status : StatusFile → AudioResult Json
  | .unreadable cause => .error (.readError AUDIO_STATUS_PATH cause)
  | .malformed cause => .error (.parseError cause)
  | .content j => .ok j

/-- `get_status_by_id(id)` (audio.rs lines 56-63). -/
def get_status_by_id (id : Nat) (f : StatusFile) : AudioResult Json :=
  match parse_status f with
  | .error e => .error e
  | .ok status =>
    match (status.index "Sources").members.find? (fun s => (s.index "ID").eqNat id) with
    | some o => .ok o
    | none => .error (.notFoundId id)

/-- `get_status_by_name(name)` (audio.rs lines 65-72). -/
def get_status_by_name (name : String) (f : StatusFile) : AudioResult Json :=
  match parse_status f with
  | .error e => .error e
  | .ok status =>
    match (status.index "Sources").members.find? (fun s => (s.index "Name").eqStr name) with
    | some o => .ok o
    | none => .error (.notFoundName name)

/-- Supported audio file formats. -/
inductive FileType where
  | wav
  | aiff
  | mp3
  deriving DecidableEq

/-- `FileType::as_str` (audio.rs lines 328-336). -/
def FileType.as_str : FileType → String
  | .wav => "wav"
  | .aiff => "aiff"
  | .mp3 => "mp3"

/-- Supported tone types, with their source-declared discriminants. -/
inductive ToneType where
  | sine
  | triangle
  | saw
  | square
  deriving DecidableEq

/-- The numeric discriminant of a `ToneType` (`tone as u8`). -/
def ToneType.code : ToneType → Nat
  | .sine => 0
  | .triangle => 1
  | .saw => 2
  | .square => 3

/-- `AudioType`: audio file or tone (audio.rs lines 304-309). -/
inductive AudioType where
  | file (file : FileType) (path : String)
  | tone (tone : ToneType) (pitch : Rat) (duration : Rat)
  deriving DecidableEq

/-- `AudioType::as_str` (audio.rs lines 311-318). -/
def AudioType.as_str : AudioType → String
  | .file ft _ => ft.as_str
  | .tone _ _ _ => "tone"

/-- `AudioBuilder` (audio.rs lines 21-27). -/
structure AudioBuilder where
  name : Option String
  audio_type : AudioType
  volume : Rat
  does_loop : Bool
  loop_count : Int
  deriving DecidableEq

/-- `Audio`, the handle to a playing instance (audio.rs lines 30-33). -/
structure Audio where
  id : Nat
  audio_type : AudioType
  deriving DecidableEq

/-- `AudioUpdate` (audio.rs lines 36-42). -/
structure AudioUpdate where
  volume : Rat
  paused : Bool
  does_loop : Bool
  loop_count : Int
  deriving DecidableEq

/-- `AudioBuilder::new` (audio.rs lines 77-85). -/
def AudioBuilder.new (audio_type : AudioType) : AudioBuilder :=
  { name := none, audio_type := audio_type, volume := 1, does_loop := false, loop_count := -1 }

/-- The fluent `name` setter (audio.rs lines 91-94); named `set_name` here
because the record field projection already takes the source name. -/
def AudioBuilder.set_name (b : AudioBuilder) (name : String) : AudioBuilder :=
  { b with name := some name }

/-- The fluent `volume` setter (audio.rs lines 99-102). -/
def AudioBuilder.set_volume (b : AudioBuilder) (volume : Rat) : AudioBuilder :=
  { b with volume := volume }

/-- The fluent `does_loop` setter (audio.rs lines 107-110). -/
def AudioBuilder.set_does_loop (b : AudioBuilder) (does_loop : Bool) : AudioBuilder :=
  { b with does_loop := does_loop }

/-- The fluent `loop_count` setter (audio.rs lines 116-119). -/
def AudioBuilder.set_loop_count (b : AudioBuilder) (loop_count : Int) : AudioBuilder :=
  { b with loop_count := loop_count }

/-- `format!("rust_audio_{}", counter)`, the generated provisional name. -/
def provisionalName (counter : Nat) : String :=
  "rust_audio_" ++ Nat.repr counter

/-- `CURRENT_AUDIO.fetch_add(1, Ordering::SeqCst)` feeding the name format:
returns the generated name (from the previous counter value) and the new
counter state.  `CURRENT_AUDIO` is an `AtomicU64`, so the increment wraps
modulo `2 ^ 64`; the stored state is always below `2 ^ 64`. -/
def generate_name (counter : Nat) : String × Nat :=
  (provisionalName counter, (counter + 1) % 2 ^ 64)

/-- The `CURRENT_AUDIO` state after `k` override-free name generations,
starting from the initial value 0 of the `lazy_static` initializer. -/
def counter_after : Nat → Nat
  | 0 => 0
  | k + 1 => (generate_name (counter_after k)).2

/-- The name drawn by the (zero-based) `k`-th override-free generation in
sequence within one process. -/
def nth_name (k : Nat) : String :=
  (generate_name (counter_after k)).1

/-- The name `build()` uses together with the counter state after the match
on `self.name` (audio.rs lines 127-131). -/
def buildName (b : AudioBuilder) (counter : Nat) : String × Nat :=
  match b.name with
  | some n => (n, counter)
  | none => generate_name counter

/-- The `Args` object of the create command (audio.rs lines 133-142). -/
def serialized_args : AudioType → Json
  | .file _ path => .jobj [("Path", .jstr path)]
  | .tone tone pitch duration =>
    .jobj [("WaveType", .jnum tone.code), ("Pitch", .jnum pitch), ("Seconds", .jnum duration)]

/-- The full create command record (audio.rs lines 144-151). -/
def serialize_create (b : AudioBuilder) (name : String) : Json :=
  .jobj [("Name", .jstr name),
         ("Type", .jstr b.audio_type.as_str),
         ("Volume", .jnum b.volume),
         ("DoesLoop", .jbool b.does_loop),
         ("LoopCount", .jnum (b.loop_count : Rat)),
         ("Args", serialized_args b.audio_type)]

/-- The polling loop of `build()` (audio.rs lines 160-169).  The list holds
the snapshot states observed by the successive reads that complete before
the elapsed time exceeds the budget; an exhausted list means the deadline
passed.  `none` models the `unwrap()` panic when a matching record has no
unsigned 64-bit `ID` field. -/
def poll_status (name : String) (t : AudioType) : List StatusFile → Option (AudioResult Audio)
  | [] => some (.error (.timeoutError AUDIO_STATUS_PATH))
  | f :: rest =>
    match get_status_by_name name f with
    | .ok status =>
      match (status.index "ID").as_u64 with
      | some id => some (.ok { id := id, audio_type := t })
      | none => none
    | .error _ => poll_status name t rest

/-- Everything observable about one `build()` call. -/
structure BuildResult where
  /-- `some` of the returned `AudioResult`, or `none` for a panic. -/
  outcome : Option (AudioResult Audio)
  /-- The counter state after the call. -/
  counter : Nat
  /-- The records appended to the command channel. -/
  appended : List Json

/-- `AudioBuilder::build` (audio.rs lines 126-173): generate the name
(incrementing the counter when no override is set), serialize the create
command, open and append to the command channel, then poll the status
snapshot for a record with the submitted name. -/
def AudioBuilder.build (b : AudioBuilder) (counter : Nat) (chan : ChannelState)
    (polls : List StatusFile) : BuildResult :=
  let np := buildName b counter
  let serialized := serialize_create b np.1
  match chan with
  | .openFail cause => ⟨some (.error (.openError AUDIO_UPDATE_PATH cause)), np.2, []⟩
  | .writeFail cause => ⟨some (.error (.writeError AUDIO_UPDATE_PATH cause)), np.2, []⟩
  | .ok => ⟨poll_status np.1 b.audio_type polls, np.2, [serialized]⟩

/-- `is_running()` (audio.rs lines 177-180); `none` is the `unwrap()` panic. -/
def is_running (f : StatusFile) : Option (AudioResult Bool) :=
  match parse_status f with
  | .error e => some (.error e)
  | .ok status =>
    match (status.index "Running").as_bool with
    | some b => some (.ok b)
    | none => none

/-- `is_disabled()` (audio.rs lines 183-186); `none` is the `unwrap()` panic. -/
def is_disabled (f : StatusFile) : Option (AudioResult Bool) :=
  match parse_status f with
  | .error e => some (.error e)
  | .ok status =>
    match (status.index "Disabled").as_bool with
    | some b => some (.ok b)
    | none => none

/-- `Audio::get_name` (audio.rs lines 190-193); `none` is the panic. -/
def Audio.get_name (a : Audio) (f : StatusFile) : Option (AudioResult String) :=
  match get_status_by_id a.id f with
  | .error e => some (.error e)
  | .ok status =>
    match (status.index "Name").as_str with
    | some s => some (.ok s)
    | none => none

/-- `Audio::get_type` (audio.rs lines 196-198): a pure clone of the stored tag. -/
def Audio.get_type (a : Audio) : AudioType :=
  a.audio_type

/-- `Audio::get_volume` (audio.rs lines 201-204); `none` is the panic. -/
def Audio.get_volume (a : Audio) (f : StatusFile) : Option (AudioResult Rat) :=
  match get_status_by_id a.id f with
  | .error e => some (.error e)
  | .ok status =>
    match (status.index "Volume").as_f64 with
    | some v => some (.ok v)
    | none => none

/-- `Audio::get_duration` (audio.rs lines 207-210); `none` is the panic. -/
def Audio.get_duration (a : Audio) (f : StatusFile) : Option (AudioResult Nat) :=
  match get_status_by_id a.id f with
  | .error e => some (.error e)
  | .ok status =>
    match (status.index "Duration").as_u64 with
    | some v => some (.ok v)
    | none => none

/-- `Audio::get_remaining` (audio.rs lines 213-216); `none` is the panic. -/
def Audio.get_remaining (a : Audio) (f : StatusFile) : Option (AudioResult Nat) :=
  match get_status_by_id a.id f with
  | .error e => some (.error e)
  | .ok status =>
    match (status.index "Remaining").as_u64 with
    | some v => some (.ok v)
    | none => none

/-- `Audio::is_paused` (audio.rs lines 219-222); `none` is the panic. -/
def Audio.is_paused (a : Audio) (f : StatusFile) : Option (AudioResult Bool) :=
  match get_status_by_id a.id f with
  | .error e => some (.error e)
  | .ok status =>
    match (status.index "Paused").as_bool with
    | some v => some (.ok v)
    | none => none

/-- `Audio::get_loop` (audio.rs lines 225-228); `none` is the panic. -/
def Audio.get_loop (a : Audio) (f : StatusFile) : Option (AudioResult Int) :=
  match get_status_by_id a.id f with
  | .error e => some (.error e)
  | .ok status =>
    match (status.index "Loop").as_i64 with
    | some v => some (.ok v)
    | none => none

/-- `Audio::get_id` (audio.rs lines 231-233): pure, infallible. -/
def Audio.get_id (a : Audio) : Nat :=
  a.id

/-- The update command record (audio.rs lines 257-263). -/
def serialize_update (a : Audio) (u : AudioUpdate) : Json :=
  .jobj [("ID", .jnum a.id),
         ("Volume", .jnum u.volume),
         ("Paused", .jbool u.paused),
         ("DoesLoop", .jbool u.does_loop),
         ("LoopCount", .jnum (u.loop_count : Rat))]

/-- `Audio::update` (audio.rs lines 256-274): append one update record to
the command channel; no snapshot is read.  Returns the call result and the
records appended. -/
def Audio.update (a : Audio) (u : AudioUpdate) (chan : ChannelState) :
    AudioResult Unit × List Json :=
  match chan with
  | .openFail cause => (.error (.openError AUDIO_UPDATE_PATH cause), [])
  | .writeFail cause => (.error (.writeError AUDIO_UPDATE_PATH cause), [])
  | .ok => (.ok (), [serialize_update a u])

/-- Numeric value of a decimal digit character. -/
def charVal (c : Char) : Nat := c.toNat - 48

/-- Value of a most-significant-first decimal digit string. -/
def revVal : List Char → Nat
  | [] => 0
  | c :: cs => charVal c * 10 ^ cs.length + revVal cs

lemma charVal_digitChar : ∀ d, d < 10 → charVal (Nat.digitChar d) = d := by decide

lemma revVal_toDigitsCore :
    ∀ (fuel n : Nat) (ds : List Char), n < fuel →
      revVal (Nat.toDigitsCore 10 fuel n ds) = n * 10 ^ ds.length + revVal ds := by
  intro fuel
  induction fuel with
  | zero => intro n ds h; omega
  | succ f ih =>
    intro n ds h
    show revVal (if n / 10 = 0 then Nat.digitChar (n % 10) :: ds
        else Nat.toDigitsCore 10 f (n / 10) (Nat.digitChar (n % 10) :: ds))
      = n * 10 ^ ds.length + revVal ds
    by_cases h10 : n / 10 = 0
    · rw [if_pos h10]
      show charVal (Nat.digitChar (n % 10)) * 10 ^ ds.length + revVal ds
        = n * 10 ^ ds.length + revVal ds
      rw [charVal_digitChar (n % 10) (Nat.mod_lt _ (by norm_num))]
      have hmod : n % 10 = n := by omega
      rw [hmod]
    · rw [if_neg h10]
      have hn' : n / 10 < f := by
        have h1 : n / 10 < n := Nat.div_lt_self (by omega) (by norm_num)
        omega
      rw [ih (n / 10) (Nat.digitChar (n % 10) :: ds) hn']
      show n / 10 * 10 ^ (ds.length + 1)
          + (charVal (Nat.digitChar (n % 10)) * 10 ^ ds.length + revVal ds)
        = n * 10 ^ ds.length + revVal ds
      rw [charVal_digitChar (n % 10) (Nat.mod_lt _ (by norm_num)), pow_succ]
      have hdm : n / 10 * 10 + n % 10 = n := by omega
      calc n / 10 * (10 ^ ds.length * 10) + (n % 10 * 10 ^ ds.length + revVal ds)
          = (n / 10 * 10 + n % 10) * 10 ^ ds.length + revVal ds := by ring
        _ = n * 10 ^ ds.length + revVal ds := by rw [hdm]

lemma revVal_toDigits (n : Nat) : revVal (Nat.toDigits 10 n) = n := by
  show revVal (Nat.toDigitsCore 10 (n + 1) n []) = n
  rw [revVal_toDigitsCore (n + 1) n [] (Nat.lt_succ_self n)]
  show n * 10 ^ 0 + 0 = n
  ring

lemma Nat_repr_injective : Function.Injective Nat.repr := by
  intro m n h
  have hd : Nat.toDigits 10 m = Nat.toDigits 10 n := by
    have h2 := congrArg String.data h
    simpa [Nat.repr, List.asString] using h2
  have h3 := congrArg revVal hd
  rwa [revVal_toDigits, revVal_toDigits] at h3

lemma provisionalName_injective : Function.Injective provisionalName := by
  intro m n h
  apply Nat_repr_injective
  apply String.ext
  have h2 := congrArg String.data h
  simp only [provisionalName, String.data_append] at h2
  exact List.append_cancel_left h2

lemma counter_after_eq_mod (k : Nat) : counter_after k = k % 2 ^ 64 := by
  induction k with
  | zero => rfl
  | succ k ih =>
    show (counter_after k + 1) % 2 ^ 64 = (k + 1) % 2 ^ 64
    rw [ih, Nat.add_mod k 1, Nat.mod_eq_of_lt (show 1 < 2 ^ 64 by norm_num)]

lemma nth_name_eq (k : Nat) : nth_name k = provisionalName (k % 2 ^ 64) := by
  rw [nth_name, generate_name, counter_after_eq_mod]

lemma find?_append_first {α : Type} (p : α → Bool) :
    ∀ (pre : List α) (r : α) (post : List α), (∀ q ∈ pre, p q = false) → p r = true →
      List.find? p (pre ++ r :: post) = some r := by
  intro pre
  induction pre with
  | nil =>
    intro r post _ hr
    simpa using List.find?_cons_of_pos post hr
  | cons a as ih =>
    intro r post hpre hr
    have ha : p a = false := hpre a (List.mem_cons_self a as)
    rw [List.cons_append, List.find?_cons_of_neg _ (by simp [ha])]
    exact ih r post (fun q hq => hpre q (List.mem_cons_of_mem a hq)) hr

lemma poll_status_skip (name : String) (t : AudioType) (f : StatusFile)
    (rest : List StatusFile) (h : (get_status_by_name name f).isOk = false) :
    poll_status name t (f :: rest) = poll_status name t rest := by
  cases hg : get_status_by_name name f with
  | ok s => rw [hg] at h; simp [Except.isOk, Except.toBool] at h
  | error e => simp [poll_status, hg]

lemma poll_status_first_hit (name : String) (t : AudioType) :
    ∀ (pre : List StatusFile) (f : StatusFile) (post : List StatusFile),
      (∀ g ∈ pre, (get_status_by_name name g).isOk = false) →
      poll_status name t (pre ++ f :: post) = poll_status name t (f :: post) := by
  intro pre
  induction pre with
  | nil => intro f post _; rfl
  | cons g gs ih =>
    intro f post hpre
    rw [List.cons_append,
      poll_status_skip name t g _ (hpre g (List.mem_cons_self g gs)),
      ih f post (fun q hq => hpre q (List.mem_cons_of_mem g hq))]

lemma poll_status_all_miss (name : String) (t : AudioType) :
    ∀ polls : List StatusFile, (∀ g ∈ polls, (get_status_by_name name g).isOk = false) →
      poll_status name t polls = some (.error (.timeoutError AUDIO_STATUS_PATH)) := by
  intro polls
  induction polls with
  | nil => intro _; rfl
  | cons f rest ih =>
    intro h
    rw [poll_status_skip name t f rest (h f (List.mem_cons_self f rest))]
    exact ih (fun q hq => h q (List.mem_cons_of_mem f hq))

lemma poll_status_error_is_timeout (name : String) (t : AudioType) :
    ∀ (polls : List StatusFile) (e : AudioError),
      poll_status name t polls = some (.error e) → e = .timeoutError AUDIO_STATUS_PATH := by
  intro polls
  induction polls with
  | nil =>
    intro e h
    have h2 : AudioError.timeoutError AUDIO_STATUS_PATH = e := by
      simpa [poll_status] using h
    exact h2.symm
  | cons f rest ih =>
    intro e h
    cases hg : get_status_by_name name f with
    | ok s =>
      cases hid : (s.index "ID").as_u64 with
      | some id => simp [poll_status, hg, hid] at h
      | none => simp [poll_status, hg, hid] at h
    | error e2 =>
      rw [poll_status_skip name t f rest (by simp [hg, Except.isOk, Except.toBool])] at h
      exact ih e h

/-- C2: the claim says every public operation returns a recoverable result
and never aborts the process, even when the snapshot parses as JSON but a
record field is missing or ill-typed.  The code violates this: at such
snapshots the `unwrap()` calls panic, aborting the process.  Here `none`
is the panic outcome of the embedding: `is_running` on a snapshot whose
`Running` field is a number panics, and `Audio::get_name` on a snapshot
whose matching record lacks a string `Name` field panics. -/
theorem C2_panic_on_ill_typed_fields :
    is_running (StatusFile.content (Json.jobj [("Running", Json.jnum 1)])) = none ∧
    Audio.get_name { id := 3, audio_type := AudioType.file FileType.wav "audio.wav" }
      (StatusFile.content (Json.jobj [("Sources",
        Json.jarr [Json.jobj [("ID", Json.jnum 3)]])])) = none :=
  ⟨rfl, rfl⟩

/-- C3: the create command emitted by `build()` contains exactly the
provisional name, the variant discriminator string ("wav", "aiff", "mp3",
or "tone"), the volume, loop flag, loop count, and the nested
variant-specific payload: the file path for file sources, or the waveform
code (Sine=0, Triangle=1, Saw=2, Square=3), pitch and duration for tones. -/
theorem C3_command_record (b : AudioBuilder) (counter : Nat) (polls : List StatusFile) :
    (AudioBuilder.build b counter ChannelState.ok polls).appended =
      [Json.jobj
        [("Name", Json.jstr (match b.name with
            | some n => n
            | none => provisionalName counter)),
         ("Type", Json.jstr b.audio_type.as_str),
         ("Volume", Json.jnum b.volume),
         ("DoesLoop", Json.jbool b.does_loop),
         ("LoopCount", Json.jnum (b.loop_count : Rat)),
         ("Args", match b.audio_type with
            | AudioType.file _ path => Json.jobj [("Path", Json.jstr path)]
            | AudioType.tone tone pitch duration =>
                Json.jobj [("WaveType", Json.jnum (tone.code : Rat)),
                           ("Pitch", Json.jnum pitch), ("Seconds", Json.jnum duration)])]] ∧
    FileType.as_str .wav = "wav" ∧
    FileType.as_str .aiff = "aiff" ∧
    FileType.as_str .mp3 = "mp3" ∧
    (∀ ft p, AudioType.as_str (.file ft p) = FileType.as_str ft) ∧
    (∀ tn pi du, AudioType.as_str (.tone tn pi du) = "tone") ∧
    ToneType.code .sine = 0 ∧
    ToneType.code .triangle = 1 ∧
    ToneType.code .saw = 2 ∧
    ToneType.code .square = 3 := by
  refine ⟨?_, rfl, rfl, rfl, fun ft p => rfl, fun tn pi du => rfl, rfl, rfl, rfl, rfl⟩
  cases hb : b.name <;> cases hat : b.audio_type <;>
    simp [AudioBuilder.build, buildName, generate_name, serialize_create, serialized_args,
      hb, hat]

/-- C8: `update()` appends exactly one record with the held identity and
the four update fields, and returns without reading any status snapshot
(structurally: `Audio.update` does not take a `StatusFile` at all). -/
theorem C8_update_fire_and_forget (a : Audio) (u : AudioUpdate) :
    Audio.update a u ChannelState.ok =
      (Except.ok (),
       [Json.jobj [("ID", Json.jnum (a.id : Rat)),
                   ("Volume", Json.jnum u.volume),
                   ("Paused", Json.jbool u.paused),
                   ("DoesLoop", Json.jbool u.does_loop),
                   ("LoopCount", Json.jnum (u.loop_count : Rat))]]) :=
  rfl

/-- C9: a fresh Builder has volume 1.0, looping disabled, and loop count
-1 (the negative, infinite value); each fluent setter replaces exactly the
field it names and leaves all other fields unchanged. -/
theorem C9_defaults_and_setters (t : AudioType) (b : AudioBuilder) (s : String) (v : Rat)
    (dl : Bool) (lc : Int) :
    AudioBuilder.new t
      = { name := none, audio_type := t, volume := 1, does_loop := false, loop_count := -1 } ∧
    (AudioBuilder.new t).loop_count < 0 ∧
    b.set_name s = { b with name := some s } ∧
    b.set_volume v = { b with volume := v } ∧
    b.set_does_loop dl = { b with does_loop := dl } ∧
    b.set_loop_count lc = { b with loop_count := lc } :=
  ⟨rfl, by show (-1 : Int) < 0; decide, rfl, rfl, rfl, rfl⟩

/-- C10: `get_id` and `get_type` are total pure functions of the Handle
alone: they return the identity and source type fixed at Handle creation,
take no snapshot argument, and so cannot be affected by any snapshot
change. -/
theorem C10_id_and_type_fixed (id : Nat) (t : AudioType) :
    (Audio.mk id t).get_id = id ∧ (Audio.mk id t).get_type = t :=
  ⟨rfl, rfl⟩

/-- C5 counterexample: two independent defects of the claim.  First, the
claim locates name assignment at Builder-construction time, but
`AudioBuilder::new` leaves the name unset (`None`) and does not touch the
counter; the name is only drawn inside `build()`, so one and the same
constructed Builder receives different provisional names depending on the
counter state when `build()` runs (counter 0 gives rust_audio_0, counter
5 gives rust_audio_5).  Second, the counter is an `AtomicU64` whose
`fetch_add` wraps modulo `2 ^ 64`, so names generated in sequence are not
unconditionally pairwise distinct: after `2 ^ 64` generations the counter
state is back at its initial value 0 and the generated name repeats the
very first one. -/
theorem C5_counterexample :
    (AudioBuilder.new (AudioType.tone ToneType.square 440 2)).name = none ∧
    (buildName (AudioBuilder.new (AudioType.tone ToneType.square 440 2)) 0).1
      = "rust_audio_0" ∧
    (buildName (AudioBuilder.new (AudioType.tone ToneType.square 440 2)) 5).1
      = "rust_audio_5" ∧
    counter_after (2 ^ 64) = counter_after 0 ∧
    nth_name (2 ^ 64) = nth_name 0 := by
  refine ⟨rfl, rfl, rfl, ?_, ?_⟩
  · rw [counter_after_eq_mod, Nat.mod_self]; rfl
  · rw [nth_name_eq, nth_name_eq, Nat.mod_self, Nat.zero_mod]

/-- C5 amended: provisional names are assigned at build() time (not at
Builder construction) from a process-wide counter that starts at 0, is
never reset, and advances by a `fetch_add` that wraps modulo `2 ^ 64`; any
two of the first `2 ^ 64` names generated in sequence within one process
(without an explicit name override) are pairwise distinct, and an
override-free `build()` from counter state `c` leaves the counter at
`(c + 1) % 2 ^ 64`. -/
theorem C5_names_pairwise_distinct (i j : Nat) (hi : i < 2 ^ 64) (hj : j < 2 ^ 64)
    (h : i ≠ j) :
    nth_name i ≠ nth_name j ∧
    (∀ c, (generate_name c).2 = (c + 1) % 2 ^ 64) ∧
    ∀ (b : AudioBuilder) (c : Nat) (chan : ChannelState) (polls : List StatusFile),
      b.name = none → (AudioBuilder.build b c chan polls).counter = (c + 1) % 2 ^ 64 := by
  refine ⟨?_, fun c => rfl, ?_⟩
  · rw [nth_name_eq, nth_name_eq, Nat.mod_eq_of_lt hi, Nat.mod_eq_of_lt hj]
    exact fun hq => h (provisionalName_injective hq)
  · intro b c chan polls hb
    cases chan <;> simp [AudioBuilder.build, buildName, generate_name, hb]

/-- C5 witness: the first two names generated in sequence differ, each
generation stores the wrapped increment, and a concrete override-free
build from counter 0 leaves the counter at `(0 + 1) % 2 ^ 64`. -/
theorem C5_names_witness :
    nth_name 0 ≠ nth_name 1 ∧
    (generate_name 0).2 = (0 + 1) % 2 ^ 64 ∧
    (AudioBuilder.build (AudioBuilder.new (AudioType.tone ToneType.sine 440 2)) 0
      ChannelState.ok []).counter = (0 + 1) % 2 ^ 64 :=
  ⟨(C5_names_pairwise_distinct 0 1 (by norm_num) (by norm_num) (by decide)).1,
   (C5_names_pairwise_distinct 0 1 (by norm_num) (by norm_num) (by decide)).2.1 0,
   (C5_names_pairwise_distinct 0 1 (by norm_num) (by norm_num) (by decide)).2.2
     (AudioBuilder.new (AudioType.tone ToneType.sine 440 2)) 0 ChannelState.ok [] rfl⟩

/-- C6: for every identity and well-formed snapshot (one that parses) in
which no source record carries that identity, the lookup fails with the
not-found error for that identity — never a parse error — including when
the `Sources` collection is absent or empty. -/
theorem C6_stale_handle_not_found (id : Nat) (j : Json)
    (h : ∀ r ∈ (j.index "Sources").members, (r.index "ID").eqNat id = false) :
    get_status_by_id id (StatusFile.content j) = .error (AudioError.notFoundId id) ∧
    ∀ cause, get_status_by_id id (StatusFile.content j)
      ≠ .error (AudioError.parseError cause) := by
  have hfind : (j.index "Sources").members.find? (fun s => (s.index "ID").eqNat id) = none :=
    List.find?_eq_none.mpr (fun x hx => by simp [h x hx])
  constructor
  · simp [get_status_by_id, parse_status, hfind]
  · intro cause hc
    rw [show get_status_by_id id (StatusFile.content j)
        = .error (AudioError.notFoundId id) by simp [get_status_by_id, parse_status, hfind]]
      at hc
    simp at hc

/-- C6 witness: a snapshot with no `Sources` collection at all yields the
not-found error for identity 7 and is not a parse error. -/
theorem C6_stale_handle_witness :
    get_status_by_id 7 (StatusFile.content (Json.jobj [("Running", Json.jbool true)]))
      = .error (AudioError.notFoundId 7) ∧
    get_status_by_id 7 (StatusFile.content (Json.jobj [("Running", Json.jbool true)]))
      ≠ .error (AudioError.parseError "x") :=
  ⟨(C6_stale_handle_not_found 7 (Json.jobj [("Running", Json.jbool true)])
      (by simp [Json.index, Json.members])).1,
   (C6_stale_handle_not_found 7 (Json.jobj [("Running", Json.jbool true)])
      (by simp [Json.index, Json.members])).2 "x"⟩

/-- C7: both lookups re-run `parse_status` on the snapshot state of the
call (a fresh parse failure surfaces on every call), scan the source
collection in order, return the first matching record, and fail with the
corresponding not-found error when nothing matches. -/
theorem C7_linear_scan_fresh (id : Nat) (name : String) (j : Json) :
    (∀ pre r post, (j.index "Sources").members = pre ++ r :: post →
      (∀ q ∈ pre, (q.index "ID").eqNat id = false) →
      (r.index "ID").eqNat id = true →
      get_status_by_id id (StatusFile.content j) = .ok r) ∧
    ((∀ r ∈ (j.index "Sources").members, (r.index "ID").eqNat id = false) →
      get_status_by_id id (StatusFile.content j) = .error (.notFoundId id)) ∧
    (∀ pre r post, (j.index "Sources").members = pre ++ r :: post →
      (∀ q ∈ pre, (q.index "Name").eqStr name = false) →
      (r.index "Name").eqStr name = true →
      get_status_by_name name (StatusFile.content j) = .ok r) ∧
    ((∀ r ∈ (j.index "Sources").members, (r.index "Name").eqStr name = false) →
      get_status_by_name name (StatusFile.content j) = .error (.notFoundName name)) ∧
    (∀ (f : StatusFile) (e : AudioError), parse_status f = .error e →
      get_status_by_id id f = .error e ∧ get_status_by_name name f = .error e) := by
  refine ⟨?_, ?_, ?_, ?_, ?_⟩
  · intro pre r post hsplit hpre hr
    have hfind := find?_append_first (fun s => (s.index "ID").eqNat id) pre r post hpre hr
    simp [get_status_by_id, parse_status, hsplit, hfind]
  · intro hall
    have hfind : (j.index "Sources").members.find? (fun s => (s.index "ID").eqNat id)
        = none := List.find?_eq_none.mpr (fun x hx => by simp [hall x hx])
    simp [get_status_by_id, parse_status, hfind]
  · intro pre r post hsplit hpre hr
    have hfind := find?_append_first (fun s => (s.index "Name").eqStr name) pre r post hpre hr
    simp [get_status_by_name, parse_status, hsplit, hfind]
  · intro hall
    have hfind : (j.index "Sources").members.find? (fun s => (s.index "Name").eqStr name)
        = none := List.find?_eq_none.mpr (fun x hx => by simp [hall x hx])
    simp [get_status_by_name, parse_status, hfind]
  · intro f e hf
    exact ⟨by simp [get_status_by_id, hf], by simp [get_status_by_name, hf]⟩

/-- C7 witness: in a snapshot with records (ID 1, name a) then (ID 2,
name b), the lookup for identity 2 skips the first record and returns the
second; the lookup for a missing name fails not-found; and an unreadable
snapshot surfaces its fresh read error on the lookup call. -/
theorem C7_linear_scan_witness :
    get_status_by_id 2 (StatusFile.content (Json.jobj [("Sources", Json.jarr
        [Json.jobj [("ID", Json.jnum 1), ("Name", Json.jstr "a")],
         Json.jobj [("ID", Json.jnum 2), ("Name", Json.jstr "b")]])]))
      = .ok (Json.jobj [("ID", Json.jnum 2), ("Name", Json.jstr "b")]) ∧
    get_status_by_name "c" (StatusFile.content (Json.jobj [("Sources", Json.jarr
        [Json.jobj [("ID", Json.jnum 1), ("Name", Json.jstr "a")],
         Json.jobj [("ID", Json.jnum 2), ("Name", Json.jstr "b")]])]))
      = .error (.notFoundName "c") ∧
    get_status_by_id 2 (StatusFile.unreadable "gone")
      = .error (.readError AUDIO_STATUS_PATH "gone") := by
  refine ⟨?_, ?_, ?_⟩
  · exact (C7_linear_scan_fresh 2 "c" (Json.jobj [("Sources", Json.jarr
        [Json.jobj [("ID", Json.jnum 1), ("Name", Json.jstr "a")],
         Json.jobj [("ID", Json.jnum 2), ("Name", Json.jstr "b")]])])).1
      [Json.jobj [("ID", Json.jnum 1), ("Name", Json.jstr "a")]]
      (Json.jobj [("ID", Json.jnum 2), ("Name", Json.jstr "b")]) []
      rfl (by decide) (by decide)
  · exact (C7_linear_scan_fresh 2 "c" (Json.jobj [("Sources", Json.jarr
        [Json.jobj [("ID", Json.jnum 1), ("Name", Json.jstr "a")],
         Json.jobj [("ID", Json.jnum 2), ("Name", Json.jstr "b")]])])).2.2.2.1
      (by decide)
  · exact ((C7_linear_scan_fresh 2 "c" (Json.jobj [])).2.2.2.2
      (StatusFile.unreadable "gone") (.readError AUDIO_STATUS_PATH "gone") rfl).1

/-- C1: with the command channel writable, `build()` first appends the
serialized create command, then polls the status snapshot for a record
whose `Name` equals the submitted provisional name; the first poll whose
lookup succeeds (on a record carrying an unsigned 64-bit `ID`) makes
`build()` return a Handle with that `ID` immediately, and if every poll
completed within the budget misses, `build()` returns the timeout error;
the budget is the fixed 2 seconds. -/
theorem C1_create_and_confirm (b : AudioBuilder) (counter : Nat) (polls : List StatusFile)
    (hname : b.name = none) :
    (AudioBuilder.build b counter ChannelState.ok polls).appended
      = [serialize_create b (provisionalName counter)] ∧
    (∀ pre f post status id, polls = pre ++ f :: post →
      (∀ g ∈ pre, (get_status_by_name (provisionalName counter) g).isOk = false) →
      get_status_by_name (provisionalName counter) f = .ok status →
      (status.index "ID").as_u64 = some id →
      (AudioBuilder.build b counter ChannelState.ok polls).outcome
        = some (.ok { id := id, audio_type := b.audio_type })) ∧
    ((∀ g ∈ polls, (get_status_by_name (provisionalName counter) g).isOk = false) →
      (AudioBuilder.build b counter ChannelState.ok polls).outcome
        = some (.error (.timeoutError AUDIO_STATUS_PATH))) ∧
    time_out_secs = 2 := by
  have hbn : buildName b counter = (provisionalName counter, (counter + 1) % 2 ^ 64) := by
    simp [buildName, hname, generate_name]
  have houtcome : (AudioBuilder.build b counter ChannelState.ok polls).outcome
      = poll_status (provisionalName counter) b.audio_type polls := by
    simp [AudioBuilder.build, hbn]
  refine ⟨by simp [AudioBuilder.build, hbn], ?_, ?_, rfl⟩
  · intro pre f post status id hsplit hpre hf hid
    rw [houtcome, hsplit, poll_status_first_hit _ _ pre f post hpre]
    simp [poll_status, hf, hid]
  · intro hall
    rw [houtcome, poll_status_all_miss _ _ polls hall]

/-- C1 witness: a build from counter 0 over two observed snapshots — a
transiently malformed one, then one containing a record named
rust_audio_0 with ID 5 — appends the serialized command and returns the
Handle with ID 5 on the first matching poll. -/
theorem C1_create_and_confirm_witness :
    (AudioBuilder.build (AudioBuilder.new (AudioType.tone ToneType.sine 440 2)) 0
        ChannelState.ok
        [StatusFile.malformed "x",
         StatusFile.content (Json.jobj [("Sources", Json.jarr
           [Json.jobj [("ID", Json.jnum 5), ("Name", Json.jstr "rust_audio_0")]])])]).appended
      = [serialize_create (AudioBuilder.new (AudioType.tone ToneType.sine 440 2))
          (provisionalName 0)] ∧
    (AudioBuilder.build (AudioBuilder.new (AudioType.tone ToneType.sine 440 2)) 0
        ChannelState.ok
        [StatusFile.malformed "x",
         StatusFile.content (Json.jobj [("Sources", Json.jarr
           [Json.jobj [("ID", Json.jnum 5), ("Name", Json.jstr "rust_audio_0")]])])]).outcome
      = some (.ok { id := 5, audio_type := AudioType.tone ToneType.sine 440 2 }) := by
  have h := C1_create_and_confirm (AudioBuilder.new (AudioType.tone ToneType.sine 440 2)) 0
    [StatusFile.malformed "x",
     StatusFile.content (Json.jobj [("Sources", Json.jarr
       [Json.jobj [("ID", Json.jnum 5), ("Name", Json.jstr "rust_audio_0")]])])] rfl
  refine ⟨h.1, ?_⟩
  exact h.2.1 [StatusFile.malformed "x"]
    (StatusFile.content (Json.jobj [("Sources", Json.jarr
      [Json.jobj [("ID", Json.jnum 5), ("Name", Json.jstr "rust_audio_0")]])])) []
    (Json.jobj [("ID", Json.jnum 5), ("Name", Json.jstr "rust_audio_0")]) 5
    rfl (by decide) rfl (by decide)

/-- C4: during polling every failed snapshot lookup (read, parse, or
record not found) is swallowed and the loop just moves to the next
observation; the only errors `build()` returns are the final timeout error
on the successful-write path and the open or write errors of the command
channel, which arise before any polling. -/
theorem C4_polling_errors_swallowed (b : AudioBuilder) (counter : Nat)
    (polls : List StatusFile) :
    (∀ (name : String) (t : AudioType) (f : StatusFile) (rest : List StatusFile),
      (get_status_by_name name f).isOk = false →
      poll_status name t (f :: rest) = poll_status name t rest) ∧
    (∀ e, (AudioBuilder.build b counter ChannelState.ok polls).outcome = some (.error e) →
      e = AudioError.timeoutError AUDIO_STATUS_PATH) ∧
    (∀ cause, (AudioBuilder.build b counter (ChannelState.openFail cause) polls).outcome
      = some (.error (.openError AUDIO_UPDATE_PATH cause))) ∧
    (∀ cause, (AudioBuilder.build b counter (ChannelState.writeFail cause) polls).outcome
      = some (.error (.writeError AUDIO_UPDATE_PATH cause))) := by
  refine ⟨poll_status_skip, ?_, fun cause => rfl, fun cause => rfl⟩
  intro e h
  have houtcome : (AudioBuilder.build b counter ChannelState.ok polls).outcome
      = poll_status (buildName b counter).1 b.audio_type polls := rfl
  rw [houtcome] at h
  exact poll_status_error_is_timeout _ _ polls e h

/-- C4 witness: a poll over a malformed snapshot equals the poll without
it; an override-free build whose polls all miss returns exactly the
timeout error; a failed channel open surfaces the open error. -/
theorem C4_polling_witness :
    poll_status "n" (AudioType.file FileType.mp3 "m.mp3") [StatusFile.malformed "x"]
      = poll_status "n" (AudioType.file FileType.mp3 "m.mp3") [] ∧
    AudioError.timeoutError AUDIO_STATUS_PATH = AudioError.timeoutError AUDIO_STATUS_PATH ∧
    (AudioBuilder.build (AudioBuilder.new (AudioType.file FileType.mp3 "m.mp3")) 0
        (ChannelState.openFail "denied") []).outcome
      = some (.error (.openError AUDIO_UPDATE_PATH "denied")) := by
  have h := C4_polling_errors_swallowed
    (AudioBuilder.new (AudioType.file FileType.mp3 "m.mp3")) 0 []
  refine ⟨?_, ?_, h.2.2.1 "denied"⟩
  · exact h.1 "n" (AudioType.file FileType.mp3 "m.mp3") (StatusFile.malformed "x") []
      (by decide)
  · exact h.2.1 (AudioError.timeoutError AUDIO_STATUS_PATH) rfl

end ReplitAudio
